import Mathlib

/-!
Verification of the resource-governance layer of the google-sheets-combiner
repository: the retry/backoff executor and rate-limit decorators
(src/rate_limiter.py), the quota tracker (src/quota_monitor.py), and the
output path resolver / resilient writer (src/unc_path_manager.py).

The Python code is shallowly embedded: time is modelled by rationals,
exceptions by explicit `Except` values, the wall clock and the file system
by explicit parameters (oracles), and printed log lines by lists of events.
-/

namespace SheetsCombiner

/-! ## Failure classification (src/rate_limiter.py)

The wrapped operation either returns a value or raises; an exception is
either an `HttpError` carrying a status code (`e.resp.status`) or any other
Python exception (collapsed into `other`, since `retry_on_quota_error`
inspects nothing but the class and the status). -/

inductive PyError : Type where
  | http (status : Nat)
  | other
deriving Repr, DecidableEq

/-- Embeds the test at line 57 of rate_limiter.py: status 429 means the
remote signalled a rate limit. -/
def is_rate_limited_status (s : Nat) : Bool :=
  s == 429

/-- Embeds the test at line 64 of rate_limiter.py: retryable server errors. -/
def is_server_error_status (s : Nat) : Bool :=
  s == 500 || s == 502 || s == 503 || s == 504

/-- An exception is retryable iff it is an HttpError whose status is 429 or
one of the listed server error statuses. -/
def is_retryable : PyError → Bool
  | PyError.http s => is_rate_limited_status s || is_server_error_status s
  | PyError.other => false

/-! ## Retry/backoff executor (retry_on_quota_error, rate_limiter.py 37-84)

The wrapped operation is a function from the attempt index (0-based) to its
outcome on that attempt.  `retryAux b factor remaining attempt last` embeds
the `for attempt in range(max_retries + 1)` loop with `remaining` iterations
left, the current attempt index, and the current `last_exception` value.
It returns the final outcome (`Except.error last` embeds
`raise last_exception` after exhaustion, where `last = none` embeds the
initial `last_exception = None`), the list of `time.sleep` backoff durations
in order, and the number of attempts actually made. -/

def retryAux {α : Type} (b : Nat → Except PyError α) (factor : ℚ) :
    Nat → Nat → Option PyError → Except (Option PyError) α × List ℚ × Nat
  | 0, _, last => (Except.error last, [], 0)
  | Nat.succ remaining, attempt, _ =>
    match b attempt with
    | Except.ok v => (Except.ok v, [], 1)
    | Except.error e =>
      match e with
      | PyError.http s =>
        if is_rate_limited_status s then
          let r := retryAux b factor remaining (attempt + 1) (some (PyError.http s))
          (r.1, factor ^ attempt :: r.2.1, r.2.2 + 1)
        else if is_server_error_status s then
          let r := retryAux b factor remaining (attempt + 1) (some (PyError.http s))
          (r.1, factor ^ attempt :: r.2.1, r.2.2 + 1)
        else
          (Except.error (some (PyError.http s)), [], 1)
      | PyError.other => (Except.error (some PyError.other), [], 1)

/-- Embeds a call through the decorator returned by
`retry_on_quota_error(max_retries, backoff_factor)`:
`max_retries + 1` total tries starting at attempt 0 with no recorded
exception. -/
def retry_on_quota_error {α : Type} (max_retries : Nat) (backoff_factor : ℚ)
    (b : Nat → Except PyError α) : Except (Option PyError) α × List ℚ × Nat :=
  retryAux b backoff_factor (max_retries + 1) 0 none

/-! ### Theorems C4 and C5 -/

/-- C4: an operation that raises RateLimited (HTTP 429) on attempts 1 and 2
and succeeds on attempt 3 causes exactly two backoff sleeps, of durations
`backoff_factor ^ 0 = 1` and `backoff_factor ^ 1 = backoff_factor`, and the
executor returns the attempt-3 result unchanged (three attempts are made).
Stated for the executor with its configured default of 3 retries. -/
theorem retry_two_rate_limits_then_success {α : Type}
    (b : Nat → Except PyError α) (factor : ℚ) (v : α)
    (h0 : b 0 = Except.error (PyError.http 429))
    (h1 : b 1 = Except.error (PyError.http 429))
    (h2 : b 2 = Except.ok v) :
    retry_on_quota_error 3 factor b = (Except.ok v, [1, factor], 3) := by
  simp only [retry_on_quota_error, retryAux, h0, h1, h2,
    is_rate_limited_status, is_server_error_status]
  norm_num

/-- Witness for C4 at a concrete operation: fails with 429 on the first two
attempts, returns 7 on the third; backoff factor 2 gives sleeps [1, 2]. -/
theorem retry_two_rate_limits_then_success_witness :
    retry_on_quota_error 3 (2 : ℚ)
      (fun n => match n with
        | 0 => Except.error (PyError.http 429)
        | 1 => Except.error (PyError.http 429)
        | _ => Except.ok (7 : Nat)) = (Except.ok 7, [1, 2], 3) :=
  retry_two_rate_limits_then_success _ 2 7 rfl rfl rfl

/-- C5: an operation whose first attempt raises a non-retryable (Fatal)
failure is never retried: the executor performs zero sleeps, makes exactly
one attempt, and propagates exactly that failure.  Stated for every retry
budget and backoff factor. -/
theorem retry_fatal_first_attempt {α : Type}
    (max_retries : Nat) (factor : ℚ) (b : Nat → Except PyError α) (e : PyError)
    (h0 : b 0 = Except.error e) (hf : is_retryable e = false) :
    retry_on_quota_error max_retries factor b =
      (Except.error (some e), [], 1) := by
  cases e with
  | http s =>
    simp only [is_retryable, Bool.or_eq_false_iff] at hf
    simp [retry_on_quota_error, retryAux, h0, hf.1, hf.2]
  | other =>
    simp only [retry_on_quota_error, retryAux, h0]

/-- Witness for C5 at a concrete operation: a 403 (non-retryable HttpError)
on the first attempt propagates immediately with no sleeps. -/
theorem retry_fatal_first_attempt_witness :
    is_retryable (PyError.http 403) = false ∧
    retry_on_quota_error 3 (2 : ℚ)
      (fun _ => (Except.error (PyError.http 403) : Except PyError Nat)) =
      (Except.error (some (PyError.http 403)), [], 1) :=
  ⟨rfl, retry_fatal_first_attempt 3 2 _ (PyError.http 403) rfl rfl⟩

/-! ### Theorem C6 -/

/-- One loop iteration on a retryable failure: the executor sleeps
`factor ^ attempt` and continues with the failure recorded, whichever of the
two retryable branches (429 or listed server error) was taken. -/
lemma retryAux_retryable_step {α : Type} (b : Nat → Except PyError α)
    (factor : ℚ) (remaining attempt : Nat) (last : Option PyError)
    (e : PyError) (hb : b attempt = Except.error e)
    (hr : is_retryable e = true) :
    retryAux b factor (remaining + 1) attempt last =
      ((retryAux b factor remaining (attempt + 1) (some e)).1,
        factor ^ attempt ::
          (retryAux b factor remaining (attempt + 1) (some e)).2.1,
        (retryAux b factor remaining (attempt + 1) (some e)).2.2 + 1) := by
  cases e with
  | http s =>
    simp only [is_retryable, Bool.or_eq_true] at hr
    rcases hr with hr | hr
    · simp [retryAux, hb, hr]
    · simp only [retryAux, hb]
      cases h429 : is_rate_limited_status s <;> simp [hr]
  | other =>
    simp [is_retryable] at hr

/-- Helper: peeling the first element off a range-indexed list of backoff
durations shifts the base attempt index. -/
lemma map_pow_range_succ (factor : ℚ) (n a : Nat) :
    List.map (fun j => factor ^ (a + j)) (List.range (n + 1)) =
      factor ^ a :: List.map (fun j => factor ^ (a + 1 + j)) (List.range n) := by
  rw [List.range_succ_eq_map, List.map_cons, List.map_map, add_zero]
  congr 1
  apply List.map_congr_left
  intro j _
  simp only [Function.comp_apply]
  congr 1
  omega

/-- When every attempt fails with a retryable failure, the loop sleeps once
per iteration (durations `factor ^ attempt` for the consecutive attempt
indices) and exhausts, returning the failure of the last attempt made. -/
lemma retryAux_all_retryable {α : Type} (b : Nat → Except PyError α)
    (factor : ℚ) (eb : Nat → PyError)
    (hb : ∀ i, b i = Except.error (eb i))
    (hr : ∀ i, is_retryable (eb i) = true) :
    ∀ (r attempt : Nat) (last : Option PyError),
      retryAux b factor (r + 1) attempt last =
        (Except.error (some (eb (attempt + r))),
          (List.range (r + 1)).map (fun j => factor ^ (attempt + j)),
          r + 1) := by
  intro r
  induction r with
  | zero =>
    intro attempt last
    rw [retryAux_retryable_step b factor 0 attempt last (eb attempt)
      (hb attempt) (hr attempt)]
    simp [retryAux, map_pow_range_succ]
  | succ r ih =>
    intro attempt last
    rw [retryAux_retryable_step b factor (r + 1) attempt last (eb attempt)
      (hb attempt) (hr attempt), ih (attempt + 1) (some (eb attempt))]
    refine Prod.ext ?_ (Prod.ext ?_ ?_) <;> simp only
    · have h : attempt + 1 + r = attempt + (r + 1) := by omega
      rw [h]
    · rw [map_pow_range_succ factor (r + 1) attempt]

/-- C6 as stated is false on the code: with the default budget of 3 retries
and factor 2, an operation failing with HTTP 429 on all four tries causes
FOUR backoff sleeps, [1, 2, 4, 8] — the final, exhausted retryable failure
is also followed by a backoff sleep before the loop exits, whereas the
claimed state machine performs a SLEEP only when attempts remain (which
would give three sleeps). The last retryable failure is indeed re-raised. -/
theorem retry_exhausted_counterexample :
    retry_on_quota_error 3 (2 : ℚ)
      (fun _ => (Except.error (PyError.http 429) : Except PyError Nat)) =
      (Except.error (some (PyError.http 429)), [1, 2, 4, 8], 4) ∧
    ([(1 : ℚ), 2, 4, 8].length = 3) = False := by
  constructor
  · simp [retry_on_quota_error, retryAux, is_rate_limited_status]
    norm_num
  · simp

/-- C6 amended: when every one of the `max_retries + 1` tries fails with a
retryable failure, the executor re-raises the retryable failure of the last
try, and performs one backoff sleep after EVERY retryable failure including
the exhausted final one — `max_retries + 1` sleeps of durations
`factor ^ 0, …, factor ^ max_retries` — before exiting with the error. -/
theorem retry_all_retryable_exhausts {α : Type}
    (max_retries : Nat) (factor : ℚ)
    (b : Nat → Except PyError α) (eb : Nat → PyError)
    (hb : ∀ i, b i = Except.error (eb i))
    (hr : ∀ i, is_retryable (eb i) = true) :
    retry_on_quota_error max_retries factor b =
      (Except.error (some (eb max_retries)),
        (List.range (max_retries + 1)).map (fun j => factor ^ j),
        max_retries + 1) := by
  rw [retry_on_quota_error, retryAux_all_retryable b factor eb hb hr]
  simp

/-- Witness for the amended C6 at a concrete operation: HTTP 503 on every
try, budget 3, factor 2: four sleeps [1, 2, 4, 8] and the 503 re-raised. -/
theorem retry_all_retryable_exhausts_witness :
    retry_on_quota_error 3 (2 : ℚ)
      (fun _ => (Except.error (PyError.http 503) : Except PyError Nat)) =
      (Except.error (some (PyError.http 503)),
        (List.range 4).map (fun j => (2 : ℚ) ^ j), 4) :=
  retry_all_retryable_exhausts 3 2 _ (fun _ => PyError.http 503)
    (fun _ => rfl) (fun _ => rfl)

/-! ## Rate governor (rate_limit, rate_limiter.py 12-34)

One pass through the wrapper returned by `rate_limit`: `last_called` is the
governor's stored timestamp, `now` the clock reading on entry
(`time.time()`), `finish` the clock reading after the wrapped callable
returns (`time.time()` at line 31), and `outcome` what the callable does.
The result is the propagated outcome, the new stored timestamp, and the
spacing delay slept (`left_to_wait` clamped at zero).  The assignment
`last_called[0] = time.time()` sits AFTER the call, so it is skipped when
the callable raises. -/

def rate_limit_wrapper {α : Type} (min_interval last_called now finish : ℚ)
    (outcome : Except PyError α) : Except PyError α × ℚ × ℚ :=
  let elapsed := now - last_called
  let left_to_wait := min_interval - elapsed
  let slept := if left_to_wait > 0 then left_to_wait else 0
  match outcome with
  | Except.ok v => (Except.ok v, finish, slept)
  | Except.error e => (Except.error e, last_called, slept)

/-- C10: the governor's stored timestamp is updated (to the time at which
the callable returned) only on success; when the callable raises, the
exception propagates and the timestamp is left unchanged, so the next
attempt's spacing is still measured from the end of the last successful
call. -/
theorem rate_limit_timestamp_only_on_success {α : Type}
    (min_interval last_called now finish : ℚ) (e : PyError) (v : α) :
    (rate_limit_wrapper min_interval last_called now finish
        (Except.error e : Except PyError α)).2.1 = last_called ∧
    (rate_limit_wrapper min_interval last_called now finish
        (Except.error e : Except PyError α)).1 = Except.error e ∧
    (rate_limit_wrapper min_interval last_called now finish
        (Except.ok v)).2.1 = finish := by
  refine ⟨rfl, rfl, rfl⟩

/-! ## Order of checks in a governed call (quota_aware_api_call, 87-123)

`quota_aware_api_call` stacks, from the outside in: `retry_on_quota_error`,
then `rate_limit`, then the body that consults
`quota_monitor.should_pause_for_quota()`, calls
`quota_monitor.enforce_rate_limit`, invokes the operation, and records usage
(`log_drive_request` / `log_sheets_request`).  Because decorators apply
bottom-up, the `rate_limit` spacing check wraps that body: on every attempt
the spacing check runs first, then the pause check, then the enforce check,
then the invocation, and recording happens after a successful invocation.
The observable actions of one governed call are modelled as a trace. -/

inductive GovEvent : Type where
  | spacingCheck
  | pauseCheck
  | enforceCheck
  | invoke (attempt : Nat)
  | record
  | backoffSleep (duration : ℚ)
deriving Repr, DecidableEq

/-- Trace of the innermost wrapper body (rate_limiter.py 101-120) on one
attempt: pause check, enforce check, invocation; usage is recorded only
when the invocation returns normally. -/
def body_trace {α : Type} (attempt : Nat) (outcome : Except PyError α) :
    List GovEvent :=
  [GovEvent.pauseCheck, GovEvent.enforceCheck, GovEvent.invoke attempt] ++
    match outcome with
    | Except.ok _ => [GovEvent.record]
    | Except.error _ => []

/-- Trace of the `rate_limit`-wrapped body on one attempt: the spacing
check of rate_limiter.py 25-28 runs before the body. -/
def rate_limited_body_trace {α : Type} (attempt : Nat)
    (outcome : Except PyError α) : List GovEvent :=
  GovEvent.spacingCheck :: body_trace attempt outcome

/-- Trace of the retry loop around the rate-limited body, with `remaining`
tries left at attempt index `attempt`: after a retryable failure the loop
sleeps `factor ^ attempt` and re-enters the rate-limited body. -/
def quota_aware_trace {α : Type} (b : Nat → Except PyError α) (factor : ℚ) :
    Nat → Nat → List GovEvent
  | 0, _ => []
  | Nat.succ remaining, attempt =>
    rate_limited_body_trace attempt (b attempt) ++
      match b attempt with
      | Except.ok _ => []
      | Except.error e =>
        if is_retryable e then
          GovEvent.backoffSleep (factor ^ attempt) ::
            quota_aware_trace b factor remaining (attempt + 1)
        else []

/-- Trace of one call through the decorator returned by
`quota_aware_api_call` (which uses `max_retries = 3`,
`backoff_factor = 2.0`); kept general in the budget and factor. -/
def quota_aware_call_trace {α : Type} (max_retries : Nat) (factor : ℚ)
    (b : Nat → Except PyError α) : List GovEvent :=
  quota_aware_trace b factor (max_retries + 1) 0

/-- Index of the first occurrence of an event in a trace. -/
def event_idx (e : GovEvent) (tr : List GovEvent) : Nat :=
  tr.findIdx (fun x => decide (x = e))

/-- C1 as stated is false on the code: for a governed call whose operation
succeeds immediately, the trace is spacing check, then pause check, then
enforce check, then invocation, then recording — the pause check does NOT
precede the spacing check; the `rate_limit` spacing delay is executed
before `should_pause_for_quota` on every attempt, because the decorator
wraps the body that performs the pause check. -/
theorem governed_call_order_counterexample :
    quota_aware_call_trace 3 (2 : ℚ) (fun _ => Except.ok (0 : Nat)) =
      [GovEvent.spacingCheck, GovEvent.pauseCheck, GovEvent.enforceCheck,
        GovEvent.invoke 0, GovEvent.record] ∧
    event_idx GovEvent.spacingCheck
        (quota_aware_call_trace 3 (2 : ℚ) (fun _ => Except.ok (0 : Nat))) <
      event_idx GovEvent.pauseCheck
        (quota_aware_call_trace 3 (2 : ℚ) (fun _ => Except.ok (0 : Nat))) ∧
    ¬ (event_idx GovEvent.pauseCheck
          (quota_aware_call_trace 3 (2 : ℚ) (fun _ => Except.ok (0 : Nat))) <
        event_idx GovEvent.spacingCheck
          (quota_aware_call_trace 3 (2 : ℚ) (fun _ => Except.ok (0 : Nat)))) := by
  refine ⟨by rfl, by decide, by decide⟩

/-- Shape of a correctly ordered governed-call trace starting at attempt
index `i`: each attempt block is spacing check, pause check, enforce check,
invocation (with consecutive attempt indices); a successful attempt is
followed by exactly a recording and ends the trace; a failed attempt either
ends the trace (fatal) or is followed by a backoff sleep and another block
(retryable). -/
def attempt_blocks_ordered : Nat → List GovEvent → Bool
  | _, [] => true
  | i, GovEvent.spacingCheck :: GovEvent.pauseCheck :: GovEvent.enforceCheck ::
      GovEvent.invoke j :: rest =>
    decide (j = i) &&
      (match rest with
       | [] => true
       | [GovEvent.record] => true
       | GovEvent.backoffSleep _ :: rest2 => attempt_blocks_ordered (i + 1) rest2
       | _ => false)
  | _, _ => false

/-- C1 amended: on every attempt of every call issued through
`quota_aware_api_call`, the inter-call spacing check of the `rate_limit`
decorator executes FIRST, then the quota pause check
(`should_pause_for_quota`), then `enforce_rate_limit`, then the operation
is invoked; usage recording happens directly after (and only after) a
successful invocation, and a backoff sleep directly after every retryable
failure. -/
theorem governed_call_trace_ordered {α : Type} (max_retries : Nat)
    (factor : ℚ) (b : Nat → Except PyError α) :
    attempt_blocks_ordered 0 (quota_aware_call_trace max_retries factor b) =
      true := by
  suffices h : ∀ (r i : Nat),
      attempt_blocks_ordered i (quota_aware_trace b factor r i) = true from
    h (max_retries + 1) 0
  intro r
  induction r with
  | zero => intro i; rfl
  | succ r ih =>
    intro i
    show attempt_blocks_ordered i
      (rate_limited_body_trace i (b i) ++ _) = true
    cases hb : b i with
    | ok v =>
      simp [rate_limited_body_trace, body_trace, attempt_blocks_ordered, hb]
    | error e =>
      cases hr : is_retryable e with
      | false =>
        simp [rate_limited_body_trace, body_trace, attempt_blocks_ordered,
          hb, hr]
      | true =>
        simp [rate_limited_body_trace, body_trace, attempt_blocks_ordered,
          hb, hr, ih (i + 1)]

/-! ## Quota tracker (src/quota_monitor.py)

Wall-clock time (`time.time()`) is an integer parameter `now`, modelled at
whole-second granularity: the tracker only ever compares clock differences
against the whole-second window lengths 60 and 100 and truncates the
remaining wait with `int()` (the identity on whole seconds), so
whole-second clock readings exercise every branch of the source.  The
calendar date (`datetime.now().date()`) is an integer day parameter
`today`.  The `start_time` field of `QuotaUsage` is written in
`__post_init__` and never read, so it is omitted.  Printed lines become
`QEvent` values, emitted in source order. -/

inductive OpKind : Type where
  | read
  | write
  | create
  | copy
  | convert
  | delete
  | otherKind
deriving Repr, DecidableEq

inductive ApiName : Type where
  | drive
  | sheets
deriving Repr, DecidableEq

inductive QEvent : Type where
  | sheetsLimitWarning (count : Nat)
  | driveLimitWarning (count : Nat)
  | driveQueryWarning (count : Nat)
  | minuteSummary (sheets : Nat)
  | hundredSecondSummary (drive queries : Nat)
  | dailySummary (quota : Nat)
  | dailyQuotaWarning (quota : Nat)
  | progress (api : ApiName) (count : Nat)
deriving Repr, DecidableEq

structure QuotaUsage : Type where
  drive_requests : Nat
  sheets_requests : Nat
  drive_queries : Nat
  daily_drive_quota : Nat
  last_reset : Int
deriving Repr, DecidableEq

structure QuotaMonitor : Type where
  usage : QuotaUsage
  minute_start : Int
  hundred_second_start : Int
deriving Repr, DecidableEq

/-- The monitor constructed at process start (`QuotaMonitor.__init__` at
clock reading 0 on day 0): zero counters, both window clocks at 0. -/
def initial_monitor : QuotaMonitor :=
  { usage := { drive_requests := 0, sheets_requests := 0, drive_queries := 0,
               daily_drive_quota := 0, last_reset := 0 },
    minute_start := 0, hundred_second_start := 0 }

/-- Embeds `_estimate_quota_units` (quota_monitor.py 61-71): the weight
table with default 1 for unrecognized operation kinds. -/
def estimate_quota_units : OpKind → Nat
  | OpKind.read => 1
  | OpKind.write => 10
  | OpKind.create => 100
  | OpKind.copy => 100
  | OpKind.convert => 200
  | OpKind.delete => 100
  | OpKind.otherKind => 1

/-- Embeds `_reset_minute_counters` (102-108): log the ended minute window
when it saw any sheets request, zero the sheets counter, restart the
minute clock at the current time. -/
def reset_minute_counters (now : Int) (m : QuotaMonitor) :
    QuotaMonitor × List QEvent :=
  let events :=
    if m.usage.sheets_requests > 0 then
      [QEvent.minuteSummary m.usage.sheets_requests]
    else []
  ({ m with
      usage := { m.usage with sheets_requests := 0 },
      minute_start := now },
    events)

/-- Embeds `_reset_hundred_second_counters` (110-117). -/
def reset_hundred_second_counters (now : Int) (m : QuotaMonitor) :
    QuotaMonitor × List QEvent :=
  let events :=
    if m.usage.drive_requests > 0 ∨ m.usage.drive_queries > 0 then
      [QEvent.hundredSecondSummary m.usage.drive_requests
        m.usage.drive_queries]
    else []
  ({ m with
      usage := { m.usage with drive_requests := 0, drive_queries := 0 },
      hundred_second_start := now },
    events)

/-- Embeds `_reset_daily_counters` (119-124): the summary prints
unconditionally, the daily weighted total is zeroed, and the last-reset
date becomes the current date. -/
def reset_daily_counters (today : Int) (m : QuotaMonitor) :
    QuotaMonitor × List QEvent :=
  ({ m with
      usage := { m.usage with daily_drive_quota := 0, last_reset := today } },
    [QEvent.dailySummary m.usage.daily_drive_quota])

/-- Embeds `_is_new_day` (126-128). -/
def is_new_day (today : Int) (m : QuotaMonitor) : Bool :=
  decide (today > m.usage.last_reset)

/-- Embeds `_check_limits` (73-100): the near-limit warnings for the two
short windows are emitted only inside the corresponding window-elapsed
branch, immediately before that window's counters are reset; the daily
check then runs, and finally the daily 90%-threshold warning. -/
def check_limits (now : Int) (today : Int) (m : QuotaMonitor) :
    QuotaMonitor × List QEvent :=
  let step1 :=
    if now - m.minute_start ≥ 60 then
      let w :=
        if m.usage.sheets_requests > 280 then
          [QEvent.sheetsLimitWarning m.usage.sheets_requests]
        else []
      let r := reset_minute_counters now m
      (r.1, w ++ r.2)
    else (m, ([] : List QEvent))
  let m1 := step1.1
  let step2 :=
    if now - m1.hundred_second_start ≥ 100 then
      let w1 :=
        if m1.usage.drive_requests > 950 then
          [QEvent.driveLimitWarning m1.usage.drive_requests]
        else []
      let w2 :=
        if m1.usage.drive_queries > 19000 then
          [QEvent.driveQueryWarning m1.usage.drive_queries]
        else []
      let r := reset_hundred_second_counters now m1
      (r.1, w1 ++ w2 ++ r.2)
    else (m1, ([] : List QEvent))
  let m2 := step2.1
  let step3 :=
    if is_new_day today m2 then reset_daily_counters today m2
    else (m2, ([] : List QEvent))
  let m3 := step3.1
  let w4 :=
    if m3.usage.daily_drive_quota > 900000000 then
      [QEvent.dailyQuotaWarning m3.usage.daily_drive_quota]
    else []
  (m3, step1.2 ++ step2.2 ++ step3.2 ++ w4)

/-- Embeds `_print_progress` (130-133): a progress line every time the
passed count is divisible by 10. -/
def print_progress (api : ApiName) (count : Nat) : List QEvent :=
  if count % 10 == 0 then [QEvent.progress api count] else []

/-- Embeds `log_drive_request` (39-48): the drive counter and the weighted
daily total are incremented FIRST, then `_check_limits` runs (possibly
resetting the just-incremented counters), then the progress line uses the
post-check counter value. -/
def log_drive_request (operation_type : OpKind) (now : Int) (today : Int)
    (m : QuotaMonitor) : QuotaMonitor × List QEvent :=
  let m1 :=
    { m with usage :=
        { m.usage with
            drive_requests := m.usage.drive_requests + 1,
            daily_drive_quota :=
              m.usage.daily_drive_quota + estimate_quota_units
                operation_type } }
  let c := check_limits now today m1
  (c.1, c.2 ++ print_progress ApiName.drive c.1.usage.drive_requests)

/-- Embeds `log_sheets_request` (50-54): increment first, then
`_check_limits`, then the progress line on the post-check counter. -/
def log_sheets_request (now : Int) (today : Int) (m : QuotaMonitor) :
    QuotaMonitor × List QEvent :=
  let m1 :=
    { m with usage :=
        { m.usage with sheets_requests := m.usage.sheets_requests + 1 } }
  let c := check_limits now today m1
  (c.1, c.2 ++ print_progress ApiName.sheets c.1.usage.sheets_requests)

/-- Embeds `should_pause_for_quota` (166-182): Python truncates the
(guarded positive) remaining time with `int()` before adding the one-second
margin; on whole-second clock readings the truncation is the identity. -/
def should_pause_for_quota (now : Int) (m : QuotaMonitor) : Option Int :=
  let sheets_pause :=
    if m.usage.sheets_requests > 280 then
      let time_until_reset := 60 - (now - m.minute_start)
      if time_until_reset > 0 then some (time_until_reset + 1)
      else none
    else none
  match sheets_pause with
  | some v => some v
  | none =>
    if m.usage.drive_requests > 950 then
      let time_until_reset := 100 - (now - m.hundred_second_start)
      if time_until_reset > 0 then some (time_until_reset + 1)
      else none
    else none

/-- Recognizer for the sheets near-limit warning event. -/
def is_sheets_limit_warning : QEvent → Bool
  | QEvent.sheetsLimitWarning _ => true
  | _ => false

/-- The monitor after `n` sheets requests all issued at clock 0 on day 0,
starting from the freshly constructed monitor. -/
def sheets_calls_at_zero : Nat → QuotaMonitor
  | 0 => initial_monitor
  | Nat.succ n =>
    (log_sheets_request 0 0 (sheets_calls_at_zero n)).1

/-! ### Theorem C2 -/

/-- Calls issued at the very start of the window never trigger a rollover,
so `n` sheets requests at clock 0 leave the fresh monitor with exactly `n`
counted sheets requests and both window clocks still at 0. -/
lemma sheets_calls_at_zero_eq (n : Nat) :
    sheets_calls_at_zero n =
      { usage := { drive_requests := 0, sheets_requests := n,
                   drive_queries := 0, daily_drive_quota := 0,
                   last_reset := 0 },
        minute_start := 0, hundred_second_start := 0 } := by
  induction n with
  | zero => rfl
  | succ n ih =>
    simp [sheets_calls_at_zero, ih, log_sheets_request, check_limits,
      is_new_day, print_progress]

/-- C2 as stated is false on the code: recording 281 sheets requests within
a single 60s window (here: all at clock 0, the window start) emits NO
near-limit warning on the 281st call — `_check_limits` only prints the
warning once the window has elapsed, on a later call — and a subsequent
`should_pause_for_quota` inside the window returns a duration of 61 seconds,
which exceeds the 60-second window length (the code adds a one-second
margin to the truncated remaining time). -/
theorem sheets_near_limit_counterexample :
    (sheets_calls_at_zero 280).usage.sheets_requests = 280 ∧
    (sheets_calls_at_zero 280).minute_start = 0 ∧
    ((log_sheets_request 0 0 (sheets_calls_at_zero 280)).2.all
      fun e => ! is_sheets_limit_warning e) = true ∧
    should_pause_for_quota 0 (sheets_calls_at_zero 281) = some 61 ∧
    ¬ ((61 : Int) ≤ 60) := by
  rw [sheets_calls_at_zero_eq 280, sheets_calls_at_zero_eq 281]
  decide

/-- If the 60-second window has not yet elapsed, `_check_limits` emits no
sheets near-limit warning (the other branches emit only drive, daily and
summary events). -/
lemma check_limits_no_sheets_warning (now : Int) (today : Int)
    (m : QuotaMonitor) (hmin : ¬ now - m.minute_start ≥ 60) :
    ((check_limits now today m).2.all
      fun e => ! is_sheets_limit_warning e) = true := by
  unfold check_limits
  rw [if_neg hmin]
  by_cases h3 : m.usage.last_reset < today <;>
    simp [reset_hundred_second_counters, reset_daily_counters, is_new_day,
      h3, is_sheets_limit_warning] <;>
    split_ifs <;>
    simp [is_sheets_limit_warning]

/-- C2 amended: given more than 280 recorded calls of the 60s-window
category within one window (less than 60 seconds since the window start),
the next `recordCall` logs NO near-limit warning (the warning is emitted
lazily, only by a call arriving after the window has elapsed), and a
`shouldPause` call made within the window returns a positive duration no
larger than 61 seconds — the window length plus the one-second safety
margin (61 is attained when no window time has elapsed). -/
theorem sheets_near_limit_amended (m : QuotaMonitor) (now : Int)
    (today : Int)
    (hlo : 0 ≤ now - m.minute_start) (hhi : now - m.minute_start < 60)
    (hcount : m.usage.sheets_requests > 280) :
    ((log_sheets_request now today m).2.all
      fun e => ! is_sheets_limit_warning e) = true ∧
    0 < (should_pause_for_quota now m).getD 0 ∧
    (should_pause_for_quota now m).getD 0 ≤ 61 := by
  refine ⟨?_, ?_⟩
  · simp only [log_sheets_request, List.all_append]
    refine Bool.and_eq_true_iff.mpr ⟨?_, ?_⟩
    · exact check_limits_no_sheets_warning now today _ (by simp; omega)
    · simp only [print_progress]
      split_ifs <;> simp [is_sheets_limit_warning]
  · have ht : 60 - (now - m.minute_start) > 0 := by omega
    simp only [should_pause_for_quota, if_pos hcount, if_pos ht,
      Option.getD_some]
    omega

/-- A monitor state with 281 sheets requests recorded in the current 60s
window (window clock at 0). -/
def monitor_with_281_sheets : QuotaMonitor :=
  { usage := { drive_requests := 0, sheets_requests := 281, drive_queries := 0,
               daily_drive_quota := 0, last_reset := 0 },
    minute_start := 0, hundred_second_start := 0 }

/-- Witness for the amended C2 at a concrete state: 281 recorded sheets
calls, 30 seconds into the window. -/
theorem sheets_near_limit_amended_witness :
    ((0 : Int) ≤ 30 - monitor_with_281_sheets.minute_start ∧
      (30 : Int) - monitor_with_281_sheets.minute_start < 60 ∧
      monitor_with_281_sheets.usage.sheets_requests > 280) ∧
    (((log_sheets_request 30 0 monitor_with_281_sheets).2.all
        fun e => ! is_sheets_limit_warning e) = true ∧
      0 < (should_pause_for_quota 30 monitor_with_281_sheets).getD 0 ∧
      (should_pause_for_quota 30 monitor_with_281_sheets).getD 0 ≤ 61) :=
  ⟨⟨by decide, by decide, by decide⟩,
    sheets_near_limit_amended monitor_with_281_sheets 30 0
      (by decide) (by decide) (by decide)⟩

/-! ### Theorem C3 -/

/-- A monitor state that has recorded 5 drive requests in the current 100s
window, with both window clocks started at 0. -/
def monitor_with_5_drive : QuotaMonitor :=
  { usage := { drive_requests := 5, sheets_requests := 0, drive_queries := 0,
               daily_drive_quota := 5, last_reset := 0 },
    minute_start := 0, hundred_second_start := 0 }

/-- C3 as stated is false on the code: a drive `recordCall` arriving at
clock 150, after the 100s window (started at 0) has elapsed, is counted
BEFORE the rollover check — the just-ended window's summary reports 6
requests (the 5 old ones plus the arriving call) rather than 5, and the
counters are then reset to 0, so the arriving call is absorbed into the
elapsed window and the new window starts at 0 rather than 1. -/
theorem drive_rollover_counterexample :
    (log_drive_request OpKind.read 150 0 monitor_with_5_drive
        ).1.usage.drive_requests = 0 ∧
    ((log_drive_request OpKind.read 150 0 monitor_with_5_drive
        ).1.usage.drive_requests = 1) = False ∧
    (log_drive_request OpKind.read 150 0 monitor_with_5_drive).2 =
      [QEvent.hundredSecondSummary 6 0, QEvent.progress ApiName.drive 0] ∧
    QEvent.hundredSecondSummary 5 0 ∉
      (log_drive_request OpKind.read 150 0 monitor_with_5_drive).2 := by
  decide

/-- When the 100s window has elapsed and the drive counter is positive,
`_check_limits` resets the drive counter to zero and logs the window
summary with the pre-reset counter values. -/
lemma check_limits_hundred_elapsed (now : Int) (today : Int)
    (m : QuotaMonitor)
    (h : now - m.hundred_second_start ≥ 100)
    (hd : m.usage.drive_requests > 0) :
    (check_limits now today m).1.usage.drive_requests = 0 ∧
    QEvent.hundredSecondSummary m.usage.drive_requests m.usage.drive_queries
      ∈ (check_limits now today m).2 := by
  unfold check_limits
  by_cases hmin2 : now - m.minute_start ≥ 60 <;>
    by_cases h3 : m.usage.last_reset < today <;>
      simp [reset_minute_counters, reset_hundred_second_counters,
        reset_daily_counters, is_new_day, hmin2, h3, h, hd]

/-- C3 amended: a drive `recordCall` arriving after the 100s window has
elapsed is counted into the ELAPSED window, not the new one: the tracker
increments first, then logs the just-ended window's summary (which
therefore includes the arriving call) and resets the counters, so the new
window's drive counter is 0 after the call. -/
theorem drive_rollover_amended (op : OpKind) (now : Int) (today : Int)
    (m : QuotaMonitor) (h : now - m.hundred_second_start ≥ 100) :
    (log_drive_request op now today m).1.usage.drive_requests = 0 ∧
    QEvent.hundredSecondSummary (m.usage.drive_requests + 1)
        m.usage.drive_queries ∈ (log_drive_request op now today m).2 := by
  simp only [log_drive_request]
  have hc := check_limits_hundred_elapsed now today
    { m with usage :=
        { m.usage with
            drive_requests := m.usage.drive_requests + 1,
            daily_drive_quota :=
              m.usage.daily_drive_quota + estimate_quota_units op } }
    (by simpa using h) (by simp)
  refine ⟨hc.1, ?_⟩
  simp only [List.mem_append]
  exact Or.inl hc.2

/-- Witness for the amended C3 at a concrete state: 5 drive requests in the
window, the next call arriving at clock 150. -/
theorem drive_rollover_amended_witness :
    ((150 : Int) - monitor_with_5_drive.hundred_second_start ≥ 100) ∧
    ((log_drive_request OpKind.read 150 0 monitor_with_5_drive
        ).1.usage.drive_requests = 0 ∧
      QEvent.hundredSecondSummary
          (monitor_with_5_drive.usage.drive_requests + 1)
          monitor_with_5_drive.usage.drive_queries ∈
        (log_drive_request OpKind.read 150 0 monitor_with_5_drive).2) :=
  ⟨by decide, drive_rollover_amended OpKind.read 150 0 monitor_with_5_drive
    (by decide)⟩

/-! ## Output path resolver and resilient writer (src/unc_path_manager.py)

Paths are strings; `os.path.abspath` and `os.path.join` are modelled
POSIX-style without `..`-normalization (no claim involves dot segments):
a path is absolute iff it starts with "/", and resolving a relative path
prepends the current working directory.  The JSON configuration sections
are records of `Option` fields: `some v` means the key is present, and
reads use `Option.getD`, mirroring `dict.get(key, default)`.  The file
system (directory creation, `shutil.copy2`, the write probe) is an oracle
of success flags; a delivery function returns its boolean outcome together
with the list of destination paths successfully written. -/

/-- Python `str.startswith`. -/
def startswith (pre s : String) : Bool :=
  pre.data.isPrefixOf s.data

/-- Python `str.endswith`. -/
def endswith (suf s : String) : Bool :=
  suf.data.isSuffixOf s.data

/-- Models `os.path.abspath` (POSIX, no dot-segment normalization). -/
def abspath (cwd p : String) : String :=
  if startswith "/" p then p else cwd ++ "/" ++ p

/-- Models `os.path.join` for two components (POSIX, ignoring the corner
case of a first component already ending in a separator). -/
def path_join (a b : String) : String :=
  if startswith "/" b then b
  else if a = "" then b
  else a ++ "/" ++ b

/-- Models `.replace("/", "\\")` on the joined UNC path (a single-character
textual replacement). -/
def slashes_to_backslashes (s : String) : String :=
  String.mk (s.data.map fun c => if c = '/' then '\\' else c)

/-- The hard-coded local default used by every
`.get("default_local", "output/combined_sheets.xlsx")` in the source. -/
def default_local_default : String :=
  "output/combined_sheets.xlsx"

/-- The `output_paths` section of the configuration.  The
`use_local_on_unc_failure` key is documented (default config, test config,
`get_configuration_summary`) to live in the `fallback_options` section, but
`_fallback_to_local` reads it from THIS dict, so the field is carried here
to model that lookup; it is `none` under the documented schema. -/
structure OutputPaths : Type where
  default_local : Option String
  unc_drive_enabled : Option Bool
  unc_base_path : Option String
  backup_to_local : Option Bool
  use_local_on_unc_failure : Option Bool
deriving Repr, DecidableEq

/-- The `fallback_options` section of the configuration. -/
structure FallbackOptions : Type where
  use_local_on_unc_failure : Option Bool
  create_missing_directories : Option Bool
  verify_path_accessibility : Option Bool
  retry_attempts : Option Nat
deriving Repr, DecidableEq

/-- The `security` section of the configuration. -/
structure SecurityConfig : Type where
  validate_unc_path : Option Bool
  allowed_unc_patterns : Option (List String)
deriving Repr, DecidableEq

structure UNCConfig : Type where
  output_paths : OutputPaths
  fallback_options : FallbackOptions
  security : SecurityConfig
deriving Repr, DecidableEq

/-- Embeds `is_unc_enabled` (unc_path_manager.py 56-58). -/
def is_unc_enabled (config : UNCConfig) : Bool :=
  config.output_paths.unc_drive_enabled.getD false

/-- Models `re.match(regex_pattern, unc_path, re.IGNORECASE)` for the regex
obtained by `pattern.replace("\\", "\\\\").replace("*", ".*")` (line 72):
backslashes are literal, `*` becomes `.*` (any character sequence), a `.`
already in the pattern is the regex any-character, and every other
character matches itself case-insensitively.  `re.match` anchors only at
the start, so the pattern needs to match a PREFIX of the path.  The fuel
argument (strictly decreasing sum of both list lengths, plus one) makes the
recursion structural. -/
def regex_match_fuel : Nat → List Char → List Char → Bool
  | 0, _, _ => false
  | Nat.succ fuel, p, s =>
    match p with
    | [] => true
    | c :: ps =>
      if c = '*' then
        regex_match_fuel fuel ps s ||
          (match s with
           | [] => false
           | _ :: s2 => regex_match_fuel fuel (c :: ps) s2)
      else if c = '.' then
        match s with
        | [] => false
        | _ :: s2 => regex_match_fuel fuel ps s2
      else
        match s with
        | [] => false
        | d :: s2 => (c.toLower = d.toLower) && regex_match_fuel fuel ps s2

/-- The translated-pattern match of `validate_unc_path`, at sufficient
fuel. -/
def glob_regex_matches (pattern s : String) : Bool :=
  regex_match_fuel (pattern.data.length + s.data.length + 1) pattern.data
    s.data

/-- Embeds `validate_unc_path` (60-77): reject anything not starting with
the UNC prefix; when the security section enables validation and supplies a
non-empty allow-list, accept exactly when some pattern matches; otherwise
accept. -/
def validate_unc_path (config : UNCConfig) (unc_path : String) : Bool :=
  if ! startswith "\\\\" unc_path then false
  else
    let security_config := config.security
    if security_config.validate_unc_path.getD false then
      let allowed_patterns := security_config.allowed_unc_patterns.getD []
      if ! allowed_patterns.isEmpty then
        allowed_patterns.any fun pattern => glob_regex_matches pattern unc_path
      else true
    else true

/-- Embeds `get_output_path` (113-159).  Template rendering
(`filename_template.format(**default_vars)`, lines 136-154) depends on the
wall clock and is abstracted by the `rendered_filename` parameter — the
filename the template renders to; no claim touches its internals.  Python
truthiness of the override (`filename_override or ...`) makes an empty
override fall back to the configured value. -/
def get_output_path (config : UNCConfig) (cwd : String)
    (filename_override : Option String) (rendered_filename : String) :
    String :=
  let output_config := config.output_paths
  if ! is_unc_enabled config then
    let local_path :=
      match filename_override with
      | some f =>
        if f = "" then output_config.default_local.getD default_local_default
        else f
      | none => output_config.default_local.getD default_local_default
    abspath cwd local_path
  else
    let unc_base := output_config.unc_base_path.getD ""
    if unc_base = "" then
      abspath cwd (output_config.default_local.getD default_local_default)
    else
      let filename :=
        match filename_override with
        | some f => if f = "" then rendered_filename else f
        | none => rendered_filename
      slashes_to_backslashes (path_join unc_base filename)

/-- Success flags of the file-system operations a delivery may perform:
the accessibility probe of `check_unc_accessibility`, the copy of retry
attempt `i`, the fallback copy, and the backup copy (each flag covers the
whole corresponding `try` block: directory creation plus `shutil.copy2`). -/
structure FileSystemOracle : Type where
  unc_accessible : Bool
  copy_ok : Nat → Bool
  fallback_copy_ok : Bool
  backup_copy_ok : Bool

/-- Embeds `_fallback_to_local` (207-228).  NOTE the source reads
`use_local_on_unc_failure` from the `output_paths` dict it was handed
(line 209), not from `fallback_options`. -/
def fallback_to_local (source_file : String) (output_config : OutputPaths)
    (fs : FileSystemOracle) (cwd : String) : Bool × List String :=
  if ! output_config.use_local_on_unc_failure.getD true then (false, [])
  else
    let local_path :=
      abspath cwd (output_config.default_local.getD default_local_default)
    if fs.fallback_copy_ok then (true, [local_path]) else (false, [])

/-- Embeds `_create_local_backup` (230-245): a best-effort copy whose
failure only logs. -/
def create_local_backup (output_config : OutputPaths)
    (fs : FileSystemOracle) (cwd : String) : List String :=
  if fs.backup_copy_ok then
    [abspath cwd (output_config.default_local.getD default_local_default)]
  else []

/-- Embeds the `for attempt in range(retry_attempts)` loop of
`save_file_safely` (180-201): `some writes` is a successful copy on some
attempt (with the UNC backup copy when configured), `none` is exhaustion of
all attempts. -/
def save_attempts (target_path : String) (output_config : OutputPaths)
    (fs : FileSystemOracle) (cwd : String) :
    Nat → Nat → Option (List String)
  | 0, _ => none
  | Nat.succ k, i =>
    if fs.copy_ok i then
      some (target_path ::
        (if startswith "\\\\" target_path &&
            output_config.backup_to_local.getD true then
          create_local_backup output_config fs cwd
        else []))
    else save_attempts target_path output_config fs cwd k (i + 1)

/-- Embeds `save_file_safely` (161-205): UNC targets are validated and
probed first (each failure branches to `_fallback_to_local`), then up to
`retry_attempts` copy attempts run, and exhaustion also falls back. -/
def save_file_safely (config : UNCConfig) (source_file target_path : String)
    (fs : FileSystemOracle) (cwd : String) : Bool × List String :=
  let output_config := config.output_paths
  let fallback_config := config.fallback_options
  if startswith "\\\\" target_path &&
      ! validate_unc_path config target_path then
    fallback_to_local source_file output_config fs cwd
  else if startswith "\\\\" target_path &&
      fallback_config.verify_path_accessibility.getD true &&
      ! fs.unc_accessible then
    fallback_to_local source_file output_config fs cwd
  else
    let retry_attempts := fallback_config.retry_attempts.getD 3
    match save_attempts target_path output_config fs cwd retry_attempts 0 with
    | some writes => (true, writes)
    | none => fallback_to_local source_file output_config fs cwd

/-! ### Theorem C7 -/

/-- A configuration with network delivery disabled, a configured local
default in a subdirectory, and network settings present. -/
def local_cfg : UNCConfig :=
  { output_paths :=
      { default_local := some "output/combined_sheets.xlsx",
        unc_drive_enabled := some false,
        unc_base_path := some "\\\\server\\share",
        backup_to_local := some true,
        use_local_on_unc_failure := none },
    fallback_options :=
      { use_local_on_unc_failure := some true,
        create_missing_directories := some true,
        verify_path_accessibility := some true,
        retry_attempts := some 3 },
    security :=
      { validate_unc_path := none, allowed_unc_patterns := none } }

/-- C7 as stated is false on the code: with network delivery disabled and
override "x.xlsx", `get_output_path` resolves the OVERRIDE against the
working directory, returning "/home/user/x.xlsx" — the directory portion
"output" of the configured local default "output/combined_sheets.xlsx" is
NOT preserved (the claim predicts "/home/user/output/x.xlsx"). -/
theorem output_path_override_counterexample :
    get_output_path local_cfg "/home/user" (some "x.xlsx") "rendered.xlsx" =
      "/home/user/x.xlsx" ∧
    ("/home/user/x.xlsx" = "/home/user/output/x.xlsx") = False := by
  constructor
  · decide
  · decide

/-- C7 amended: with network delivery disabled, `get_output_path` with a
(non-empty) override returns the absolute form of the override ITSELF,
resolved against the working directory — the configured local default,
including its directory portion, is ignored entirely (regardless of any
network settings present) — and the result still ends in the override
filename. -/
theorem output_path_override_amended (config : UNCConfig)
    (cwd o rendered : String)
    (hdis : config.output_paths.unc_drive_enabled.getD false = false)
    (hno : ¬ o = "") :
    get_output_path config cwd (some o) rendered = abspath cwd o ∧
    endswith o (get_output_path config cwd (some o) rendered) = true := by
  have h1 : get_output_path config cwd (some o) rendered = abspath cwd o := by
    simp [get_output_path, is_unc_enabled, hdis, hno]
  refine ⟨h1, ?_⟩
  rw [h1]
  unfold abspath
  split
  · simp [endswith, List.isSuffixOf_iff_suffix]
  · simp only [endswith, List.isSuffixOf_iff_suffix, String.data_append]
    exact List.suffix_append _ _

/-- Witness for the amended C7: the counterexample configuration with
override "x.xlsx" and working directory "/home/user". -/
theorem output_path_override_amended_witness :
    (local_cfg.output_paths.unc_drive_enabled.getD false = false ∧
      ¬ ("x.xlsx" : String) = "") ∧
    (get_output_path local_cfg "/home/user" (some "x.xlsx") "rendered.xlsx" =
        abspath "/home/user" "x.xlsx" ∧
      endswith "x.xlsx"
        (get_output_path local_cfg "/home/user" (some "x.xlsx")
          "rendered.xlsx") = true) :=
  ⟨⟨by decide, by decide⟩,
    output_path_override_amended local_cfg "/home/user" "x.xlsx"
      "rendered.xlsx" (by decide) (by decide)⟩

/-! ### Theorem C8 -/

/-- A configuration that disables the local fallback in the documented
place — the `fallback_options` section — while the `output_paths` section
does not carry the key (as in the shipped default and test
configurations). -/
def fallback_disabled_cfg : UNCConfig :=
  { output_paths :=
      { default_local := some "output/combined_sheets.xlsx",
        unc_drive_enabled := some true,
        unc_base_path := some "\\\\server\\share",
        backup_to_local := some true,
        use_local_on_unc_failure := none },
    fallback_options :=
      { use_local_on_unc_failure := some false,
        create_missing_directories := some true,
        verify_path_accessibility := some true,
        retry_attempts := some 3 },
    security :=
      { validate_unc_path := none, allowed_unc_patterns := none } }

/-- A file system on which the destination is reachable but every copy
attempt to it fails, while a copy to the local default would succeed. -/
def all_copies_fail_fs : FileSystemOracle :=
  { unc_accessible := true,
    copy_ok := fun _ => false,
    fallback_copy_ok := true,
    backup_copy_ok := true }

/-- C8 exposes a code bug: with `use_local_on_unc_failure: false` in the
`fallback_options` section (the documented location, used by the default
config, the test fixtures and `get_configuration_summary`), a delivery to a
validated reachable destination whose `retryAttempts` copy attempts all
fail STILL performs the local fallback — `_fallback_to_local` looks the
flag up in the `output_paths` dict, where it never exists, so
`.get(..., True)` always yields True — returning overall success with a
copy written to the local default, where the claim (and the code's own
configuration schema) requires a False return and no local copy. -/
theorem save_fallback_disabled_code_bug :
    fallback_disabled_cfg.fallback_options.use_local_on_unc_failure =
      some false ∧
    fallback_disabled_cfg.output_paths.use_local_on_unc_failure = none ∧
    save_file_safely fallback_disabled_cfg "tmp/artifact.xlsx"
        "\\\\server\\share\\report.xlsx" all_copies_fail_fs "/work" =
      (true, ["/work/output/combined_sheets.xlsx"]) := by
  refine ⟨rfl, rfl, ?_⟩
  decide

/-! ### Theorem C9 -/

/-- C9: when the security section enables validation and configures a
non-empty allow-list, `validate_unc_path` accepts a destination exactly
when it starts with the network-path prefix "\\" and the translated form
of at least one configured pattern matches it case-insensitively; in
particular, if no pattern matches, validation fails. -/
theorem validate_unc_path_allowlist (config : UNCConfig) (path : String)
    (hval : config.security.validate_unc_path.getD false = true)
    (hpat : config.security.allowed_unc_patterns.getD [] ≠ []) :
    validate_unc_path config path = true ↔
      (startswith "\\\\" path = true ∧
        (config.security.allowed_unc_patterns.getD []).any
          (fun pattern => glob_regex_matches pattern path) = true) := by
  have hie : (config.security.allowed_unc_patterns.getD []).isEmpty = false := by
    cases h : config.security.allowed_unc_patterns.getD [] with
    | nil => exact absurd h hpat
    | cons a l => rfl
  unfold validate_unc_path
  cases hsw : startswith "\\\\" path <;> simp [hsw, hie, hval]

/-- A configuration enabling path validation with the allow-list pattern
`\\testserver\*`. -/
def allowlist_cfg : UNCConfig :=
  { output_paths :=
      { default_local := none, unc_drive_enabled := none,
        unc_base_path := none, backup_to_local := none,
        use_local_on_unc_failure := none },
    fallback_options :=
      { use_local_on_unc_failure := none,
        create_missing_directories := none,
        verify_path_accessibility := none, retry_attempts := none },
    security :=
      { validate_unc_path := some true,
        allowed_unc_patterns := some ["\\\\testserver\\*"] } }

/-- Witness for C9 at a concrete configuration and path (the path differs
from the pattern in letter case, exercising the case-insensitive match). -/
theorem validate_unc_path_allowlist_witness :
    (allowlist_cfg.security.validate_unc_path.getD false = true ∧
      allowlist_cfg.security.allowed_unc_patterns.getD [] ≠ []) ∧
    (validate_unc_path allowlist_cfg "\\\\TestServer\\share\\f.xlsx" = true ↔
      (startswith "\\\\" "\\\\TestServer\\share\\f.xlsx" = true ∧
        (allowlist_cfg.security.allowed_unc_patterns.getD []).any
          (fun pattern =>
            glob_regex_matches pattern "\\\\TestServer\\share\\f.xlsx") =
          true)) :=
  ⟨⟨by decide, by decide⟩,
    validate_unc_path_allowlist allowlist_cfg "\\\\TestServer\\share\\f.xlsx"
      (by decide) (by decide)⟩

end SheetsCombiner
